import Mathlib

/-!
Shallow embedding of `Website/app.py`, a small Flask backend that formats
stock price series for charting and produces a BUY/SELL/HOLD decision.

Modelling conventions:
* A pandas DataFrame of price bars is a `List Bar` in chronological order
  (the order the provider returns); `data.empty` is `= []`.
* `datetime.utcnow().date()` is a `Date` parameter `today`.
* Python `round(x, 2)` (round-half-to-even at two decimals) is `pyRound2`,
  with closes modelled as rationals.
* `get_stock_data`'s upstream call may raise; the exception channel is an
  explicit `Except String` parameter.
* The module's imported names are listed in `imported_names`; evaluating a
  name not in it raises `NameError`, modelled by `lookupName`.
-/

/-- A calendar date as produced by `datetime.date` (year, month, day). -/
structure Date where
  y : Nat
  m : Nat
  d : Nat
deriving DecidableEq, Repr

/-- Calendar (lexicographic) comparison of dates, as Python's `date <`. -/
def Date.lt (a b : Date) : Bool :=
  decide (a.y < b.y) ||
    (decide (a.y = b.y) &&
      (decide (a.m < b.m) || (decide (a.m = b.m) && decide (a.d < b.d))))

/-- Gregorian leap-year test, as `datetime`'s calendar. -/
def isLeap (y : Nat) : Bool :=
  y % 4 == 0 && (y % 100 != 0 || y % 400 == 0)

/-- Number of days in a month of a given year. -/
def daysInMonth (y m : Nat) : Nat :=
  if m = 2 then (if isLeap y then 29 else 28)
  else if m = 4 ∨ m = 6 ∨ m = 9 ∨ m = 11 then 30
  else 31

/-- Evaluate `today - timedelta(days=1)`: the previous calendar day. -/
def Date.pred (dt : Date) : Date :=
  if dt.d > 1 then ⟨dt.y, dt.m, dt.d - 1⟩
  else if dt.m > 1 then ⟨dt.y, dt.m - 1, daysInMonth dt.y (dt.m - 1)⟩
  else ⟨dt.y - 1, 12, 31⟩

/-- Zero-pad to two digits, as `strftime` field formatting. -/
def pad2 (n : Nat) : String :=
  if n < 10 then "0" ++ toString n else toString n

/-- Zero-pad to four digits, as `strftime`'s `%Y`. -/
def pad4 (n : Nat) : String :=
  if n < 10 then "000" ++ toString n
  else if n < 100 then "00" ++ toString n
  else if n < 1000 then "0" ++ toString n
  else toString n

/-- Format `strftime('%Y-%m-%d')`. -/
def fmtDate (dt : Date) : String :=
  pad4 dt.y ++ "-" ++ pad2 dt.m ++ "-" ++ pad2 dt.d

/-- Format `strftime('%Y-%m')`. -/
def fmtYM (dt : Date) : String :=
  pad4 dt.y ++ "-" ++ pad2 dt.m

/-- One price bar: the timestamp's calendar date, its time of day, and the
closing price (the only consumed fields of the provider's OHLCV rows). -/
structure Bar where
  date : Date
  hour : Nat
  minute : Nat
  close : ℚ
deriving DecidableEq, Repr

/-- Format `strftime('%H:%M')` of a bar's timestamp. -/
def fmtHM (b : Bar) : String :=
  pad2 b.hour ++ ":" ++ pad2 b.minute

/-- Floor of a rational, computed by floor-division of numerator by
denominator (kernel-reducible). -/
def ratFloor (x : ℚ) : ℤ := Int.fdiv x.num x.den

/-- Round-half-to-even to the nearest integer, the rounding of Python's
built-in `round`. -/
def roundHalfEven (x : ℚ) : ℤ :=
  let n := ratFloor x
  let f := x - (n : ℚ)
  if f < (1 : ℚ)/2 then n
  else if (1 : ℚ)/2 < f then n + 1
  else if n % 2 = 0 then n else n + 1

/-- Python `round(x, 2)`. -/
def pyRound2 (x : ℚ) : ℚ := (roundHalfEven (x * 100) : ℚ) / 100

theorem ratFloor_eq_floor (x : ℚ) : ratFloor x = ⌊x⌋ := by
  rw [Rat.floor_def, ratFloor, Int.fdiv_eq_ediv _ (by positivity)]

/-- A formatter's JSON result: either the success object
`{ticker, range, labels, values, count}` or the error object `{error}`.
The two shapes are mutually exclusive by construction, as in the source
every `return` builds exactly one of them. -/
inductive Resp where
  | success (ticker range : String) (labels : List String) (values : List ℚ)
      (count : Nat)
  | err (msg : String)
deriving DecidableEq, Repr

/-- Whether a formatter result is the success shape. -/
def Resp.isSuccess : Resp → Bool
  | .success _ _ _ _ _ => true
  | .err _ => false

/-- Whether a formatter result is the `{error}` shape. -/
def Resp.isErr : Resp → Bool
  | .success _ _ _ _ _ => false
  | .err _ => true

/-- Adapter `get_stock_data`: calls the provider inside `try/except`; any raised
exception is printed and swallowed, returning `None`. -/
def get_stock_data (providerResult : Except String (List Bar)) :
    Option (List Bar) :=
  match providerResult with
  | .ok data => some data
  | .error _ => none

/-- Formatter `format_daily_data`: daily closes up to yesterday. Filters to bars dated
strictly before `today`, keeps the last 30 (`tail(30)`), labels `%Y-%m-%d`,
closes rounded to 2 decimals. -/
def format_daily_data (ticker : String) (today : Date)
    (fetched : Option (List Bar)) : Resp :=
  match fetched with
  | none => .err "No data available"
  | some data =>
    if data.isEmpty then .err "No data available"
    else
      let filtered := data.filter (fun b => Date.lt b.date today)
      if filtered.isEmpty then .err "No historical data before today"
      else
        let recent := filtered.drop (filtered.length - 30)
        let labels := recent.map (fun b => fmtDate b.date)
        let values := recent.map (fun b => pyRound2 b.close)
        .success ticker "daily" labels values values.length

/-- Formatter `format_intraday_data`: yesterday's 30-minute bars, with a fallback to
the most recent available day when yesterday has no bars (weekends and
holidays). The `getLast?` match is the `data.empty` test; `lastBar` is
`data.index.date[-1]`, defined since `data` is non-empty there (the code's
`not data.empty` conjunct). -/
def format_intraday_data (ticker : String) (today : Date)
    (fetched : Option (List Bar)) : Resp :=
  match fetched with
  | none => .err "No data available"
  | some data =>
    match data.getLast? with
    | none => .err "No data available"
    | some lastBar =>
      let yesterday := Date.pred today
      let filtered := data.filter (fun b => decide (b.date = yesterday))
      let filtered :=
        if filtered.isEmpty then
          data.filter (fun b => decide (b.date = lastBar.date))
        else filtered
      if filtered.isEmpty then .err "No intraday data available"
      else
        let labels := filtered.map fmtHM
        let values := filtered.map (fun b => pyRound2 b.close)
        .success ticker "intraday" labels values values.length

/-- Formatter `format_monthly_data`: single-point output, the mean close of the whole
window rounded to 2 decimals, labelled with the `%Y-%m` of the last bar.
The `getLast?` match is the `data.empty` test; `lastBar` is `data.index[-1]`. -/
def format_monthly_data (ticker : String) (fetched : Option (List Bar)) :
    Resp :=
  match fetched with
  | none => .err "No data available"
  | some data =>
    match data.getLast? with
    | none => .err "No data available"
    | some lastBar =>
      let avg_close :=
        pyRound2 ((data.map (fun b => b.close)).sum / (data.length : ℚ))
      let period_label := fmtYM lastBar.date
      let labels := [period_label]
      let values := [avg_close]
      .success ticker "monthly" labels values values.length

/-- Python `str.upper()`: uppercase each character. -/
def pyUpper (s : String) : String := String.mk (s.data.map Char.toUpper)

/-- Python `str.strip()`: drop leading and trailing whitespace. -/
def pyStrip (s : String) : String :=
  String.mk
    (((s.data.dropWhile Char.isWhitespace).reverse.dropWhile
        Char.isWhitespace).reverse)

/-- Split a character list at every occurrence of `sep`; the accumulator
holds the current chunk reversed. -/
def splitCharAux (sep : Char) : List Char → List Char → List (List Char)
  | [], acc => [acc.reverse]
  | c :: cs, acc =>
    if c = sep then acc.reverse :: splitCharAux sep cs []
    else splitCharAux sep cs (c :: acc)

/-- Python `str.split('\n')`. -/
def pySplitNL (s : String) : List String :=
  (splitCharAux '\n' s.data []).map String.mk

/-- Python slicing `s[:n]`: the first `n` characters. -/
def pyTake (s : String) (n : Nat) : String := String.mk (s.data.take n)

/-- The names bound at module top level by the import statements of
`app.py`: `from flask import Flask, jsonify, send_from_directory`,
`from flask_cors import CORS`, `import yfinance as yf`,
`from datetime import datetime, timedelta`, `import json`, `import os`. -/
def imported_names : List String :=
  ["Flask", "jsonify", "send_from_directory", "CORS", "yf",
   "datetime", "timedelta", "json", "os"]

/-- Python name resolution at module scope: a name that is not bound
raises `NameError: name '<n>' is not defined`. -/
def lookupName (n : String) : Except String Unit :=
  if n ∈ imported_names then .ok ()
  else .error ("name '" ++ n ++ "' is not defined")

/-- Module initialization, lines 12-14: read `GEMINI_API_KEY` from the
environment (empty default) and, when it is non-empty, evaluate
`genai.configure(api_key=GEMINI_API_KEY)` — which first resolves the
name `genai`. -/
def module_init (apiKey : String) : Except String Unit :=
  if apiKey = "" then .ok ()
  else
    match lookupName "genai" with
    | .error e => .error e
    | .ok _ => .ok ()

/-- Lines 188-190 of `get_decision`: split the model reply on newlines
after stripping it; the first line stripped and uppercased is the action
candidate, the second line stripped is the reason, defaulting to
`"AI analysis complete."`. -/
def parse_response (text : String) : String × String :=
  let lines := pySplitNL (pyStrip text)
  let action := pyUpper (pyStrip (lines.headD ""))
  let reason :=
    if lines.length > 1 then pyStrip (lines.getD 1 "")
    else "AI analysis complete."
  (action, reason)

/-- Lines 193-195 of `get_decision`: if the action candidate is not exactly
`BUY`, `SELL` or `HOLD`, force `HOLD` and overwrite the reason. -/
def validate_action (p : String × String) : String × String :=
  if p.1 = "BUY" ∨ p.1 = "SELL" ∨ p.1 = "HOLD" then p
  else ("HOLD", "Unable to determine clear action; defaulting to HOLD.")

/-- Render a rational with two decimals, as Python's `f'{x:.2f}'`. -/
def fmt2 (q : ℚ) : String :=
  let c := roundHalfEven (q * 100)
  let sign := if c < 0 then "-" else ""
  let n := c.natAbs
  sign ++ toString (n / 100) ++ "." ++ pad2 (n % 100)

/-- The prompt f-string of lines 170-182, embedding ticker, company name,
current price and the recent closes. -/
def build_prompt (ticker longName : String) (current : ℚ)
    (recent : List ℚ) : String :=
  "You are a trading advisor using reinforcement learning to analyze stock data.\n\nTicker: "
    ++ ticker ++ "\nCompany: " ++ longName ++ "\nCurrent Price: $"
    ++ fmt2 current ++ "\nRecent 5-day closing prices: ["
    ++ String.intercalate ", " (recent.map (fun p => "'$" ++ fmt2 p ++ "'"))
    ++ "]\n\nBased on this data, provide a trading decision. Respond with ONLY one word: BUY, SELL, or HOLD.\nThen on a new line, provide a brief one-sentence reason (max 15 words).\n\nFormat:\nACTION\nReason here."

/-- Outbound calls a `/decision` request can make, in program order:
`stock.history(period='5d')`, `stock.info`, and
`model.generate_content(prompt)`. -/
inductive Call where
  | yfHistory
  | yfInfo
  | genaiGenerate
deriving DecidableEq, Repr

/-- The HTTP response of the `/decision` route: either the decision JSON
`{ticker, action, reason}` or the error JSON `{error}`, each with its HTTP
status code. -/
inductive DecisionHttp where
  | json (ticker action reason : String) (status : Nat)
  | errJson (msg : String) (status : Nat)
deriving DecidableEq, Repr

/-- The `action` field of a decision response, when the response is the
decision JSON. -/
def DecisionHttp.action : DecisionHttp → Option String
  | .json _ a _ _ => some a
  | .errJson _ _ => none

/-- The `except` handler of lines 202-208: any exception in the body is
converted to HTTP 200 with action `HOLD` and the exception message
truncated to its first 50 characters. -/
def decision_exc_handler (ticker msg : String) : DecisionHttp :=
  .json ticker "HOLD" ("Error during analysis: " ++ pyTake msg 50) 200

/-- Handler `get_decision` (lines 145-208). The external world is passed in as
oracles: `histRes` is the outcome of `stock.history(period='5d')` (the
list of closes), `infoRes` the outcome of `stock.info` (its `longName`
entry, when present), and `modelCall` the outcome of
`model.generate_content` on a given prompt, were it ever reached. Returns
the HTTP response together with the trace of outbound calls made. -/
def get_decision (ticker apiKey : String)
    (histRes : Except String (List ℚ))
    (infoRes : Except String (Option String))
    (modelCall : String → Except String String) :
    DecisionHttp × List Call :=
  let t := pyUpper ticker
  if apiKey = "" then
    (.json t "HOLD" "No Gemini API key configured. Using default HOLD action." 200,
     [])
  else
    match histRes with
    | .error e => (decision_exc_handler t e, [.yfHistory])
    | .ok hist =>
      match infoRes with
      | .error e => (decision_exc_handler t e, [.yfHistory, .yfInfo])
      | .ok longName =>
        if hist.isEmpty then
          (.errJson "No data available" 400, [.yfHistory, .yfInfo])
        else
          let recent_prices := hist.drop (hist.length - 5)
          let current_price := recent_prices.getLastD 0
          let prompt :=
            build_prompt t (longName.getD t) current_price recent_prices
          match lookupName "genai" with
          | .error e =>
            (decision_exc_handler t e, [.yfHistory, .yfInfo])
          | .ok _ =>
            match modelCall prompt with
            | .error e =>
              (decision_exc_handler t e, [.yfHistory, .yfInfo, .genaiGenerate])
            | .ok text =>
              let p := validate_action (parse_response text)
              (.json t p.1 p.2 200, [.yfHistory, .yfInfo, .genaiGenerate])

/-! ## Helper lemmas -/

theorem mem_of_getLast?_eq_some {α : Type} {l : List α} {a : α}
    (h : l.getLast? = some a) : a ∈ l := by
  have hne : l ≠ [] := by
    intro he
    subst he
    simp at h
  have := List.getLast?_eq_getLast l hne
  rw [this] at h
  cases h
  exact List.getLast_mem hne

theorem Date.lt_irrefl (d : Date) : Date.lt d d = false := by
  simp [Date.lt]

/-- The invariant of the success shape: the labels and values sequences and
the count field agree in length. -/
def respInv (r : Resp) : Prop :=
  match r with
  | .success _ _ labels values count =>
    labels.length = values.length ∧ count = values.length
  | .err _ => True

theorem Resp.isSuccess_eq_not_isErr (r : Resp) : r.isSuccess = !r.isErr := by
  cases r <;> rfl

theorem respInv_daily (ticker : String) (today : Date)
    (fetched : Option (List Bar)) :
    respInv (format_daily_data ticker today fetched) := by
  cases fetched with
  | none => simp [format_daily_data, respInv]
  | some data =>
    simp only [format_daily_data]
    split
    · simp [respInv]
    · split
      · simp [respInv]
      · simp [respInv]

theorem respInv_intraday (ticker : String) (today : Date)
    (fetched : Option (List Bar)) :
    respInv (format_intraday_data ticker today fetched) := by
  cases fetched with
  | none => simp [format_intraday_data, respInv]
  | some data =>
    simp only [format_intraday_data]
    repeat' split
    all_goals simp [respInv]

theorem respInv_monthly (ticker : String) (fetched : Option (List Bar)) :
    respInv (format_monthly_data ticker fetched) := by
  cases fetched with
  | none => simp [format_monthly_data, respInv]
  | some data =>
    simp only [format_monthly_data]
    split
    · simp [respInv]
    · simp [respInv]

/-! ## Claims -/

/-- C1: for every ticker input (and every fetch outcome and current date),
each of the three formatters returns either a success object whose labels,
values and count all agree in length, or an `{error}` object; the two
shapes are mutually exclusive. -/
theorem c1_formatter_shape_invariant (ticker : String) (today : Date)
    (fetched : Option (List Bar)) :
    respInv (format_daily_data ticker today fetched)
    ∧ respInv (format_intraday_data ticker today fetched)
    ∧ respInv (format_monthly_data ticker fetched)
    ∧ (format_daily_data ticker today fetched).isSuccess
        = !(format_daily_data ticker today fetched).isErr
    ∧ (format_intraday_data ticker today fetched).isSuccess
        = !(format_intraday_data ticker today fetched).isErr
    ∧ (format_monthly_data ticker fetched).isSuccess
        = !(format_monthly_data ticker fetched).isErr :=
  ⟨respInv_daily ticker today fetched,
   respInv_intraday ticker today fetched,
   respInv_monthly ticker fetched,
   Resp.isSuccess_eq_not_isErr _,
   Resp.isSuccess_eq_not_isErr _,
   Resp.isSuccess_eq_not_isErr _⟩

/-- C4: with an empty `GEMINI_API_KEY`, `get_decision` returns the fixed
HOLD payload deterministically and its outbound-call trace is empty,
for every ticker and every behaviour of the external services. -/
theorem c4_no_key_static_hold (ticker : String)
    (histRes : Except String (List ℚ))
    (infoRes : Except String (Option String))
    (modelCall : String → Except String String) :
    get_decision ticker "" histRes infoRes modelCall =
      (.json (pyUpper ticker) "HOLD"
        "No Gemini API key configured. Using default HOLD action." 200,
       []) := by
  simp [get_decision]

/-- C9: an exception in the upstream fetch is swallowed by
`get_stock_data` (which returns `None`) and surfaces from every formatter
as the `{error}` shape; and every formatter, on every input, returns one
of the two JSON shapes — it never raises. -/
theorem c9_formatters_never_raise (ticker : String) (today : Date)
    (e : String) (fetched : Option (List Bar)) :
    get_stock_data (.error e) = none
    ∧ format_daily_data ticker today (get_stock_data (.error e))
        = .err "No data available"
    ∧ format_intraday_data ticker today (get_stock_data (.error e))
        = .err "No data available"
    ∧ format_monthly_data ticker (get_stock_data (.error e))
        = .err "No data available"
    ∧ ((format_daily_data ticker today fetched).isSuccess = true
        ∨ (format_daily_data ticker today fetched).isErr = true)
    ∧ ((format_intraday_data ticker today fetched).isSuccess = true
        ∨ (format_intraday_data ticker today fetched).isErr = true)
    ∧ ((format_monthly_data ticker fetched).isSuccess = true
        ∨ (format_monthly_data ticker fetched).isErr = true) := by
  refine ⟨rfl, rfl, rfl, rfl, ?_, ?_, ?_⟩
  · cases format_daily_data ticker today fetched <;> simp [Resp.isSuccess, Resp.isErr]
  · cases format_intraday_data ticker today fetched <;> simp [Resp.isSuccess, Resp.isErr]
  · cases format_monthly_data ticker fetched <;> simp [Resp.isSuccess, Resp.isErr]

theorem lookupName_genai :
    lookupName "genai" = .error "name 'genai' is not defined" := by rfl

/-- C2: with a configured key, every exception in `get_decision`'s body —
a raising history fetch, a raising info fetch, or the `NameError` raised
at `genai.GenerativeModel` once the body reaches the model invocation —
is converted by the handler to HTTP 200 with action `HOLD` and reason
`"Error during analysis: "` followed by the first 50 characters of the
exception message; no exception propagates and none yields a non-success
status. -/
theorem c2_fail_open_on_exception (ticker apiKey e : String)
    (hist : List ℚ) (info : Option String)
    (modelCall : String → Except String String)
    (hk : apiKey ≠ "") (hh : hist ≠ []) :
    (get_decision ticker apiKey (.error e) (.ok info) modelCall).1 =
      .json (pyUpper ticker) "HOLD"
        ("Error during analysis: " ++ pyTake e 50) 200
    ∧ (get_decision ticker apiKey (.ok hist) (.error e) modelCall).1 =
      .json (pyUpper ticker) "HOLD"
        ("Error during analysis: " ++ pyTake e 50) 200
    ∧ (get_decision ticker apiKey (.ok hist) (.ok info) modelCall).1 =
      .json (pyUpper ticker) "HOLD"
        ("Error during analysis: "
          ++ pyTake "name 'genai' is not defined" 50) 200 := by
  have hh' : hist.isEmpty = false := by
    simp [List.isEmpty_eq_false]
    exact hh
  refine ⟨?_, ?_, ?_⟩
  · simp [get_decision, hk, decision_exc_handler]
  · simp [get_decision, hk, decision_exc_handler]
  · simp [get_decision, hk, hh', decision_exc_handler, lookupName_genai]

theorem c2_fail_open_on_exception_witness :
    (get_decision "aapl" "k" (.error "connection reset") (.ok none)
        (fun _ => .ok "BUY\nok")).1 =
      .json "AAPL" "HOLD"
        ("Error during analysis: " ++ pyTake "connection reset" 50) 200
    ∧ (get_decision "aapl" "k" (.ok [1, 2]) (.error "info timeout")
        (fun _ => .ok "BUY\nok")).1 =
      .json "AAPL" "HOLD"
        ("Error during analysis: " ++ pyTake "info timeout" 50) 200
    ∧ (get_decision "aapl" "k" (.ok [1, 2]) (.ok none)
        (fun _ => .ok "BUY\nok")).1 =
      .json "AAPL" "HOLD"
        ("Error during analysis: "
          ++ pyTake "name 'genai' is not defined" 50) 200 := by
  have h := c2_fail_open_on_exception "aapl" "k" "connection reset" [1, 2]
    none (fun _ => .ok "BUY\nok") (by decide) (by decide)
  have h2 := c2_fail_open_on_exception "aapl" "k" "info timeout" [1, 2]
    none (fun _ => .ok "BUY\nok") (by decide) (by decide)
  exact ⟨by rw [h.1]; decide, by rw [h2.2.1]; decide, by rw [h.2.2]; decide⟩

theorem get_decision_configured_action (ticker apiKey : String)
    (histRes : Except String (List ℚ))
    (infoRes : Except String (Option String))
    (modelCall : String → Except String String) (hk : apiKey ≠ "") :
    (get_decision ticker apiKey histRes infoRes modelCall).1.action
        = some "HOLD"
    ∨ (get_decision ticker apiKey histRes infoRes modelCall).1.action
        = none := by
  cases histRes with
  | error e =>
    left
    simp [get_decision, hk, decision_exc_handler, DecisionHttp.action]
  | ok hist =>
    cases infoRes with
    | error e =>
      left
      simp [get_decision, hk, decision_exc_handler, DecisionHttp.action]
    | ok info =>
      cases hh : hist.isEmpty with
      | true =>
        right
        simp [get_decision, hk, hh, DecisionHttp.action]
      | false =>
        left
        simp [get_decision, hk, hh, lookupName_genai, decision_exc_handler,
          DecisionHttp.action]

/-- C3: the module never imports a name `genai`: it is absent from the
import-bound names, so module initialization with a non-empty
`GEMINI_API_KEY` raises `NameError` at `genai.configure`, and the
configured-credential path of `get_decision` — whose model invocation
raises the same `NameError`, converted to the fail-open HOLD response —
can never return a model-produced BUY or SELL action. -/
theorem c3_genai_never_imported (ticker apiKey : String)
    (histRes : Except String (List ℚ))
    (infoRes : Except String (Option String))
    (modelCall : String → Except String String) (hk : apiKey ≠ "") :
    "genai" ∉ imported_names
    ∧ module_init apiKey = .error "name 'genai' is not defined"
    ∧ (get_decision ticker apiKey histRes infoRes modelCall).1.action
        ≠ some "BUY"
    ∧ (get_decision ticker apiKey histRes infoRes modelCall).1.action
        ≠ some "SELL" := by
  refine ⟨by decide, ?_, ?_, ?_⟩
  · simp [module_init, hk, lookupName_genai]
  · rcases get_decision_configured_action ticker apiKey histRes infoRes
      modelCall hk with h | h <;> rw [h] <;> simp
  · rcases get_decision_configured_action ticker apiKey histRes infoRes
      modelCall hk with h | h <;> rw [h] <;> simp

theorem c3_genai_never_imported_witness :
    "genai" ∉ imported_names
    ∧ module_init "k" = .error "name 'genai' is not defined"
    ∧ (get_decision "aapl" "k" (.ok [1, 2]) (.ok none)
        (fun _ => .ok "BUY\nok")).1.action ≠ some "BUY"
    ∧ (get_decision "aapl" "k" (.ok [1, 2]) (.ok none)
        (fun _ => .ok "BUY\nok")).1.action ≠ some "SELL" :=
  c3_genai_never_imported "aapl" "k" (.ok [1, 2]) (.ok none)
    (fun _ => .ok "BUY\nok") (by decide)

/-- The DecisionResponse invariant: when the `/decision` route returns the
decision JSON, its action is one of the three enumerated values. -/
def actionOK (r : DecisionHttp) : Prop :=
  match r with
  | .json _ a _ _ => a = "BUY" ∨ a = "SELL" ∨ a = "HOLD"
  | .errJson _ _ => True

/-- C5: whenever the parsed action candidate (the reply's first line,
stripped and uppercased, after stripping the whole reply) is not exactly
BUY, SELL or HOLD, validation forces action HOLD and overwrites the
reason with the fixed string; consequently the action field of every
decision JSON is one of the three enumerated values. -/
theorem c5_parser_forces_hold (text ticker apiKey : String)
    (histRes : Except String (List ℚ))
    (infoRes : Except String (Option String))
    (modelCall : String → Except String String)
    (h : ¬((parse_response text).1 = "BUY"
        ∨ (parse_response text).1 = "SELL"
        ∨ (parse_response text).1 = "HOLD")) :
    validate_action (parse_response text) =
      ("HOLD", "Unable to determine clear action; defaulting to HOLD.")
    ∧ ((validate_action (parse_response text)).1 = "BUY"
        ∨ (validate_action (parse_response text)).1 = "SELL"
        ∨ (validate_action (parse_response text)).1 = "HOLD")
    ∧ actionOK (get_decision ticker apiKey histRes infoRes modelCall).1 := by
  have h1 : validate_action (parse_response text) =
      ("HOLD", "Unable to determine clear action; defaulting to HOLD.") := by
    simp [validate_action, h]
  refine ⟨h1, ?_, ?_⟩
  · rw [h1]
    simp
  · by_cases hk : apiKey = ""
    · subst hk
      simp [get_decision, actionOK]
    · cases hr : (get_decision ticker apiKey histRes infoRes modelCall).1 with
      | json t a r s =>
        rcases get_decision_configured_action ticker apiKey histRes infoRes
          modelCall hk with ha | ha <;>
          rw [hr] at ha <;> simp [DecisionHttp.action] at ha
        simp [actionOK, ha]
      | errJson m s => simp [actionOK]

theorem c5_parser_forces_hold_witness :
    validate_action (parse_response "MAYBE\nuncertain") =
      ("HOLD", "Unable to determine clear action; defaulting to HOLD.")
    ∧ ((validate_action (parse_response "MAYBE\nuncertain")).1 = "BUY"
        ∨ (validate_action (parse_response "MAYBE\nuncertain")).1 = "SELL"
        ∨ (validate_action (parse_response "MAYBE\nuncertain")).1 = "HOLD")
    ∧ actionOK (get_decision "aapl" "k" (.ok [1, 2]) (.ok none)
        (fun _ => .ok "MAYBE\nuncertain")).1 :=
  c5_parser_forces_hold "MAYBE\nuncertain" "aapl" "k" (.ok [1, 2]) (.ok none)
    (fun _ => .ok "MAYBE\nuncertain") (by decide)

/-- The `filtered` intermediate of `format_daily_data`: bars dated strictly
before today. -/
def dailyFiltered (today : Date) (data : List Bar) : List Bar :=
  data.filter (fun b => Date.lt b.date today)

/-- The `recent` intermediate of `format_daily_data`: `filtered.tail(30)`,
the last thirty filtered bars. -/
def dailyRecent (today : Date) (data : List Bar) : List Bar :=
  (dailyFiltered today data).drop ((dailyFiltered today data).length - 30)

/-- C6: `format_daily_data` keeps only bars dated strictly before the
current UTC date (so no bar dated today survives), errors with
`"No historical data before today"` when the filter leaves nothing, and a
successful result is the last thirty filtered bars in their original
(chronological) order, labelled `%Y-%m-%d` with closes rounded to two
decimals. -/
theorem c6_daily_excludes_today (ticker : String) (today : Date)
    (data dataAllToday : List Bar)
    (h1 : data ≠ []) (h2 : dailyFiltered today data ≠ [])
    (h3 : dataAllToday ≠ []) (h4 : dailyFiltered today dataAllToday = []) :
    format_daily_data ticker today (some data) =
      .success ticker "daily"
        ((dailyRecent today data).map (fun b => fmtDate b.date))
        ((dailyRecent today data).map (fun b => pyRound2 b.close))
        ((dailyRecent today data).map (fun b => pyRound2 b.close)).length
    ∧ (dailyRecent today data).length ≤ 30
    ∧ ((dailyRecent today data).all
        (fun b => Date.lt b.date today && !(decide (b.date = today)))) = true
    ∧ dailyRecent today data <:+ dailyFiltered today data
    ∧ (dailyFiltered today data).Sublist data
    ∧ format_daily_data ticker today (some dataAllToday) =
        .err "No historical data before today" := by
  have hd : data.isEmpty = false := by
    simp only [List.isEmpty_eq_false]
    exact h1
  have hf : (data.filter (fun b => Date.lt b.date today)).isEmpty = false := by
    simp only [List.isEmpty_eq_false]
    simpa [dailyFiltered] using h2
  have hd3 : dataAllToday.isEmpty = false := by
    simp only [List.isEmpty_eq_false]
    exact h3
  have hf4 :
      (dataAllToday.filter (fun b => Date.lt b.date today)).isEmpty = true :=
    List.isEmpty_iff.mpr (by simpa [dailyFiltered] using h4)
  refine ⟨?_, ?_, ?_, List.drop_suffix _ _, List.filter_sublist data, ?_⟩
  · simp [format_daily_data, hd, hf, dailyRecent, dailyFiltered]
  · simp only [dailyRecent, List.length_drop]
    omega
  · simp only [List.all_eq_true]
    intro b hb
    have hbf : b ∈ dailyFiltered today data := by
      simp only [dailyRecent] at hb
      exact List.mem_of_mem_drop hb
    simp only [dailyFiltered, List.mem_filter] at hbf
    have hlt : Date.lt b.date today = true := hbf.2
    simp only [hlt, Bool.true_and, Bool.not_eq_true', decide_eq_false_iff_not]
    intro he
    rw [he] at hlt
    rw [Date.lt_irrefl] at hlt
    exact Bool.false_ne_true hlt
  · simp [format_daily_data, hd3, hf4]

theorem c6_daily_excludes_today_witness :
    format_daily_data "AAPL" ⟨2024, 5, 15⟩
      (some [⟨⟨2024, 5, 14⟩, 0, 0, 2⟩, ⟨⟨2024, 5, 15⟩, 0, 0, 3⟩]) =
      .success "AAPL" "daily"
        ((dailyRecent ⟨2024, 5, 15⟩
            [⟨⟨2024, 5, 14⟩, 0, 0, 2⟩, ⟨⟨2024, 5, 15⟩, 0, 0, 3⟩]).map
          (fun b => fmtDate b.date))
        ((dailyRecent ⟨2024, 5, 15⟩
            [⟨⟨2024, 5, 14⟩, 0, 0, 2⟩, ⟨⟨2024, 5, 15⟩, 0, 0, 3⟩]).map
          (fun b => pyRound2 b.close))
        ((dailyRecent ⟨2024, 5, 15⟩
            [⟨⟨2024, 5, 14⟩, 0, 0, 2⟩, ⟨⟨2024, 5, 15⟩, 0, 0, 3⟩]).map
          (fun b => pyRound2 b.close)).length
    ∧ (dailyRecent ⟨2024, 5, 15⟩
        [⟨⟨2024, 5, 14⟩, 0, 0, 2⟩, ⟨⟨2024, 5, 15⟩, 0, 0, 3⟩]).length ≤ 30
    ∧ ((dailyRecent ⟨2024, 5, 15⟩
        [⟨⟨2024, 5, 14⟩, 0, 0, 2⟩, ⟨⟨2024, 5, 15⟩, 0, 0, 3⟩]).all
        (fun b => Date.lt b.date ⟨2024, 5, 15⟩
          && !(decide (b.date = ⟨2024, 5, 15⟩)))) = true
    ∧ dailyRecent ⟨2024, 5, 15⟩
        [⟨⟨2024, 5, 14⟩, 0, 0, 2⟩, ⟨⟨2024, 5, 15⟩, 0, 0, 3⟩] <:+
        dailyFiltered ⟨2024, 5, 15⟩
          [⟨⟨2024, 5, 14⟩, 0, 0, 2⟩, ⟨⟨2024, 5, 15⟩, 0, 0, 3⟩]
    ∧ (dailyFiltered ⟨2024, 5, 15⟩
        [⟨⟨2024, 5, 14⟩, 0, 0, 2⟩, ⟨⟨2024, 5, 15⟩, 0, 0, 3⟩]).Sublist
        [⟨⟨2024, 5, 14⟩, 0, 0, 2⟩, ⟨⟨2024, 5, 15⟩, 0, 0, 3⟩]
    ∧ format_daily_data "AAPL" ⟨2024, 5, 15⟩
        (some [⟨⟨2024, 5, 15⟩, 9, 30, 4⟩]) =
        .err "No historical data before today" :=
  c6_daily_excludes_today "AAPL" ⟨2024, 5, 15⟩
    [⟨⟨2024, 5, 14⟩, 0, 0, 2⟩, ⟨⟨2024, 5, 15⟩, 0, 0, 3⟩]
    [⟨⟨2024, 5, 15⟩, 9, 30, 4⟩]
    (by decide) (by decide) (by decide) (by decide)

/-- C7: when the raw intraday series is non-empty but no bar is dated
yesterday (UTC today minus one day), `format_intraday_data` falls back to
all bars sharing the date of the last available bar and returns a success
result, never an error; the error branch only fires for an absent or
empty raw series. -/
theorem c7_intraday_fallback (ticker : String) (today : Date)
    (data : List Bar) (lastBar : Bar)
    (h1 : data.getLast? = some lastBar)
    (h2 : data.filter (fun b => decide (b.date = Date.pred today)) = []) :
    format_intraday_data ticker today (some data) =
      .success ticker "intraday"
        ((data.filter (fun b => decide (b.date = lastBar.date))).map fmtHM)
        ((data.filter (fun b => decide (b.date = lastBar.date))).map
          (fun b => pyRound2 b.close))
        ((data.filter (fun b => decide (b.date = lastBar.date))).map
          (fun b => pyRound2 b.close)).length
    ∧ (format_intraday_data ticker today (some data)).isErr = false
    ∧ format_intraday_data ticker today none = .err "No data available"
    ∧ format_intraday_data ticker today (some []) =
        .err "No data available" := by
  have hmem : lastBar ∈ data := mem_of_getLast?_eq_some h1
  have hfb : data.filter (fun b => decide (b.date = lastBar.date)) ≠ [] := by
    intro he
    have hin : lastBar ∈ data.filter (fun b => decide (b.date = lastBar.date)) := by
      rw [List.mem_filter]
      exact ⟨hmem, by simp⟩
    rw [he] at hin
    exact List.not_mem_nil lastBar hin
  have hfb' :
      (data.filter (fun b => decide (b.date = lastBar.date))).isEmpty = false := by
    simp only [List.isEmpty_eq_false]
    exact hfb
  have h2' :
      (data.filter (fun b => decide (b.date = Date.pred today))).isEmpty = true :=
    List.isEmpty_iff.mpr h2
  have hmain : format_intraday_data ticker today (some data) =
      .success ticker "intraday"
        ((data.filter (fun b => decide (b.date = lastBar.date))).map fmtHM)
        ((data.filter (fun b => decide (b.date = lastBar.date))).map
          (fun b => pyRound2 b.close))
        ((data.filter (fun b => decide (b.date = lastBar.date))).map
          (fun b => pyRound2 b.close)).length := by
    simp [format_intraday_data, h1, h2', hfb']
  refine ⟨hmain, ?_, rfl, rfl⟩
  rw [hmain]
  rfl

theorem c7_intraday_fallback_witness :
    format_intraday_data "AAPL" ⟨2024, 5, 20⟩
      (some [⟨⟨2024, 5, 18⟩, 10, 0, 2⟩, ⟨⟨2024, 5, 18⟩, 10, 30, 3⟩]) =
      .success "AAPL" "intraday"
        (([⟨⟨2024, 5, 18⟩, 10, 0, 2⟩,
           ⟨⟨2024, 5, 18⟩, 10, 30, 3⟩] : List Bar).filter
            (fun b => decide (b.date = (⟨⟨2024, 5, 18⟩, 10, 30, 3⟩ : Bar).date))
          |>.map fmtHM)
        (([⟨⟨2024, 5, 18⟩, 10, 0, 2⟩,
           ⟨⟨2024, 5, 18⟩, 10, 30, 3⟩] : List Bar).filter
            (fun b => decide (b.date = (⟨⟨2024, 5, 18⟩, 10, 30, 3⟩ : Bar).date))
          |>.map (fun b => pyRound2 b.close))
        (([⟨⟨2024, 5, 18⟩, 10, 0, 2⟩,
           ⟨⟨2024, 5, 18⟩, 10, 30, 3⟩] : List Bar).filter
            (fun b => decide (b.date = (⟨⟨2024, 5, 18⟩, 10, 30, 3⟩ : Bar).date))
          |>.map (fun b => pyRound2 b.close)).length
    ∧ (format_intraday_data "AAPL" ⟨2024, 5, 20⟩
        (some [⟨⟨2024, 5, 18⟩, 10, 0, 2⟩,
               ⟨⟨2024, 5, 18⟩, 10, 30, 3⟩])).isErr = false
    ∧ format_intraday_data "AAPL" ⟨2024, 5, 20⟩ none =
        .err "No data available"
    ∧ format_intraday_data "AAPL" ⟨2024, 5, 20⟩ (some []) =
        .err "No data available" :=
  c7_intraday_fallback "AAPL" ⟨2024, 5, 20⟩
    [⟨⟨2024, 5, 18⟩, 10, 0, 2⟩, ⟨⟨2024, 5, 18⟩, 10, 30, 3⟩]
    ⟨⟨2024, 5, 18⟩, 10, 30, 3⟩ (by decide) (by decide)

/-- C8 counterexample: for the closes `[100.004, 100.006]` the claim
predicts the value `100.01` (`10001/100`), but `format_monthly_data`
returns `100.00`: the mean `100.005` rounds to `100` under Python's
round-half-to-even (and the float mean `(100.004 + 100.006)/2` lands just
below `100.005`, so it too rounds down). -/
theorem c8_monthly_rounding_counterexample :
    format_monthly_data "AAPL"
      (some [⟨⟨2024, 5, 14⟩, 0, 0, (100004 : ℚ)/1000⟩,
             ⟨⟨2024, 5, 15⟩, 0, 0, (100006 : ℚ)/1000⟩]) =
      .success "AAPL" "monthly" ["2024-05"] [100] 1
    ∧ ((100 : ℚ) = 10001/100 → False) := by
  constructor
  · simp only [format_monthly_data, pyRound2, roundHalfEven, ratFloor_eq_floor,
      fmtYM, pad4, pad2]
    norm_num
    decide
  · intro h
    norm_num at h

/-- C8 (amended): for every non-empty raw series, `format_monthly_data`
returns exactly one label/value pair: the value is the arithmetic mean of
all closes rounded to 2 decimals by round-half-to-even (so for closes
`[100.004, 100.006]` the returned value is `100.00`, not `100.01`), and
the label is the `%Y-%m` month of the last bar's timestamp. -/
theorem c8_monthly_single_point (ticker : String) (data : List Bar)
    (lastBar : Bar) (h : data.getLast? = some lastBar) :
    format_monthly_data ticker (some data) =
      .success ticker "monthly" [fmtYM lastBar.date]
        [pyRound2 ((data.map (fun b => b.close)).sum / (data.length : ℚ))] 1
    ∧ pyRound2 (((100004 : ℚ)/1000 + (100006 : ℚ)/1000) / 2) = 100 := by
  constructor
  · simp [format_monthly_data, h]
  · simp only [pyRound2, roundHalfEven, ratFloor_eq_floor]
    norm_num

theorem c8_monthly_single_point_witness :
    format_monthly_data "AAPL"
      (some [⟨⟨2024, 5, 14⟩, 0, 0, (100004 : ℚ)/1000⟩,
             ⟨⟨2024, 5, 15⟩, 0, 0, (100006 : ℚ)/1000⟩]) =
      .success "AAPL" "monthly"
        [fmtYM (⟨⟨2024, 5, 15⟩, 0, 0, (100006 : ℚ)/1000⟩ : Bar).date]
        [pyRound2
          ((([⟨⟨2024, 5, 14⟩, 0, 0, (100004 : ℚ)/1000⟩,
              ⟨⟨2024, 5, 15⟩, 0, 0, (100006 : ℚ)/1000⟩] : List Bar).map
              (fun b => b.close)).sum /
            (([⟨⟨2024, 5, 14⟩, 0, 0, (100004 : ℚ)/1000⟩,
               ⟨⟨2024, 5, 15⟩, 0, 0, (100006 : ℚ)/1000⟩] : List Bar).length : ℚ))]
        1
    ∧ pyRound2 (((100004 : ℚ)/1000 + (100006 : ℚ)/1000) / 2) = 100 :=
  c8_monthly_single_point "AAPL"
    [⟨⟨2024, 5, 14⟩, 0, 0, (100004 : ℚ)/1000⟩,
     ⟨⟨2024, 5, 15⟩, 0, 0, (100006 : ℚ)/1000⟩]
    ⟨⟨2024, 5, 15⟩, 0, 0, (100006 : ℚ)/1000⟩ rfl

/-- C10: when the fetched daily series is non-empty but the before-today
filter leaves nothing, the error is `"No historical data before today"`,
distinct from the `"No data available"` returned when no data exists at
all; the intraday empty-after-filter message `"No intraday data
available"` is likewise distinct from it; and all are carried in the same
single-field `{error}` shape. -/
theorem c10_distinct_error_messages (ticker : String) (today : Date)
    (data : List Bar) (h1 : data ≠ []) (h2 : dailyFiltered today data = []) :
    format_daily_data ticker today (some data) =
      .err "No historical data before today"
    ∧ format_daily_data ticker today none = .err "No data available"
    ∧ format_intraday_data ticker today none = .err "No data available"
    ∧ ("No historical data before today" ≠ "No data available")
    ∧ ("No intraday data available" ≠ "No data available")
    ∧ (format_daily_data ticker today (some data)).isErr = true
    ∧ (format_daily_data ticker today none).isErr = true := by
  have hd : data.isEmpty = false := by
    simp only [List.isEmpty_eq_false]
    exact h1
  have hf : (data.filter (fun b => Date.lt b.date today)).isEmpty = true :=
    List.isEmpty_iff.mpr (by simpa [dailyFiltered] using h2)
  have hmain : format_daily_data ticker today (some data) =
      .err "No historical data before today" := by
    simp [format_daily_data, hd, hf]
  refine ⟨hmain, rfl, rfl, by decide, by decide, ?_, rfl⟩
  rw [hmain]
  rfl

theorem c10_distinct_error_messages_witness :
    format_daily_data "AAPL" ⟨2024, 5, 15⟩
      (some [⟨⟨2024, 5, 15⟩, 0, 0, 2⟩]) =
      .err "No historical data before today"
    ∧ format_daily_data "AAPL" ⟨2024, 5, 15⟩ none = .err "No data available"
    ∧ format_intraday_data "AAPL" ⟨2024, 5, 15⟩ none =
        .err "No data available"
    ∧ ("No historical data before today" ≠ "No data available")
    ∧ ("No intraday data available" ≠ "No data available")
    ∧ (format_daily_data "AAPL" ⟨2024, 5, 15⟩
        (some [⟨⟨2024, 5, 15⟩, 0, 0, 2⟩])).isErr = true
    ∧ (format_daily_data "AAPL" ⟨2024, 5, 15⟩ none).isErr = true :=
  c10_distinct_error_messages "AAPL" ⟨2024, 5, 15⟩
    [⟨⟨2024, 5, 15⟩, 0, 0, 2⟩] (by decide) (by decide)
